import Mathlib

/-!
Shallow embedding of the churn risk-scoring core of `src/app.py`
(bank customer churn dashboard).

Probabilities and numeric feature values are modelled as rationals (`ℚ`);
fitted classifiers and transformers are opaque records of pure functions,
mirroring how the Python code treats the unpickled scikit-learn objects as
black boxes.  Fallible operations (dictionary/column lookups, list indexing,
the guarded prediction path) return `Option`, matching the Python
`try/except` boundaries that convert any exception into an error message and
an aborted request.
-/

namespace VKR

/-! ## Risk tier assignment (`show_prediction_results`, app.py lines 487-498) -/

/-- The three risk tiers of `show_prediction_results`:
"Высокий" (high), "Средний" (medium), "Низкий" (low). -/
inductive RiskLevel where
  | high
  | medium
  | low
  deriving DecidableEq, Repr

/-- Lines 487-498 of `app.py`:
`if probability > 0.7: ... elif probability > 0.3: ... else: ...`. -/
def riskLevel (probability : ℚ) : RiskLevel :=
  if probability > 7/10 then RiskLevel.high
  else if probability > 3/10 then RiskLevel.medium
  else RiskLevel.low

/-! ## Models and the scoring path (`show_customer_assessment`, lines 436-448) -/

/-- An opaque fitted classifier as the code uses it: `predict` maps the
preprocessed row set to a list of class predictions, `predict_proba` maps it
to one probability row per input row. The embedding passes the single
preprocessed row directly. -/
structure Model where
  predict : List ℚ → List ℤ
  predict_proba : List ℚ → List (List ℚ)

/-- Line 442 of `app.py`: `probability = model.predict_proba(X_processed)[0][0]`
(row 0, class index 0 = churn). A missing index is a Python `IndexError`,
modelled as `none`. -/
def churnProbability (m : Model) (x : List ℚ) : Option ℚ :=
  ((m.predict_proba x)[0]?).bind fun row => row[0]?

/-- Lines 441-445 of `app.py`: `prediction = model.predict(X_processed)[0]`,
`probability = model.predict_proba(X_processed)[0][0]`, then
`show_prediction_results` derives the tier from `probability`.  Any indexing
failure propagates as an exception caught at line 447 (`none` here). -/
def assessCustomer (m : Model) (x : List ℚ) : Option (ℤ × ℚ × RiskLevel) :=
  match (m.predict x)[0]?, churnProbability m x with
  | some pred, some p => some (pred, p, riskLevel p)
  | _, _ => none

/-- The stub model of the spec's regression scenario: `predict_proba` always
returns `[[0.42, 0.58]]` (churn = index 0). -/
def stubModel : Model :=
  { predict := fun _ => [0]
    predict_proba := fun _ => [[42/100, 58/100]] }

/-- A model producing malformed output: a probability row of the wrong
length (1 instead of 2) whose single entry 3/2 lies outside [0, 1]. -/
def malformedModel : Model :=
  { predict := fun _ => [1]
    predict_proba := fun _ => [[3/2]] }

/-! ## Theorems for C1-C3 -/

/-- C1: the risk tier assigned by `riskLevel` is High exactly when
`p > 0.70`, Medium exactly when `0.30 < p ≤ 0.70`, and Low exactly when
`p ≤ 0.30`; the boundary values 0.70 and 0.30 fall into Medium and Low.
The three characterizing conditions partition ℚ (hence [0,1]), so every
probability receives exactly one tier. -/
theorem C1_risk_tier_thresholds :
    (∀ p : ℚ,
      (riskLevel p = RiskLevel.high ↔ 7/10 < p) ∧
      (riskLevel p = RiskLevel.medium ↔ 3/10 < p ∧ p ≤ 7/10) ∧
      (riskLevel p = RiskLevel.low ↔ p ≤ 3/10)) ∧
    riskLevel (7/10) = RiskLevel.medium ∧ riskLevel (3/10) = RiskLevel.low := by
  refine ⟨fun p => ?_, by norm_num [riskLevel], by norm_num [riskLevel]⟩
  unfold riskLevel
  split_ifs with h1 h2
  · exact ⟨⟨fun _ => h1, fun _ => rfl⟩,
      ⟨fun h => (nomatch h), fun h => absurd h1 (not_lt.mpr h.2)⟩,
      ⟨fun h => (nomatch h),
       fun h => absurd h1 (not_lt.mpr (h.trans (by norm_num)))⟩⟩
  · exact ⟨⟨fun h => (nomatch h), fun h => absurd h h1⟩,
      ⟨fun _ => ⟨h2, not_lt.mp h1⟩, fun _ => rfl⟩,
      ⟨fun h => (nomatch h), fun h => absurd h2 (not_lt.mpr h)⟩⟩
  · exact ⟨⟨fun h => (nomatch h), fun h => absurd h h1⟩,
      ⟨fun h => (nomatch h), fun h => absurd h.1 h2⟩,
      ⟨fun _ => not_lt.mp h2, fun _ => rfl⟩⟩

/-- C2: the churn probability used by the scorer is exactly the mass the
selected model's `predict_proba` assigns to index 0 of its (row 0)
distribution, and the assessment reports that probability together with the
tier derived from it. -/
theorem C2_probability_is_index_zero (m : Model) (x : List ℚ)
    (pred : ℤ) (row : List ℚ) (p : ℚ)
    (hpred : (m.predict x)[0]? = some pred)
    (hrow : (m.predict_proba x)[0]? = some row)
    (hp : row[0]? = some p) :
    assessCustomer m x = some (pred, p, riskLevel p) := by
  unfold assessCustomer churnProbability
  rw [hpred, hrow]
  simp [hp]

/-- C2 witness: the stub model whose probability function always returns
`[0.42, 0.58]` yields probability 0.42 and tier Medium. -/
theorem C2_probability_is_index_zero_witness :
    assessCustomer stubModel [] = some (0, 42/100, RiskLevel.medium) := by
  have h := C2_probability_is_index_zero stubModel [] 0 [42/100, 58/100] (42/100)
    rfl rfl rfl
  rw [h]
  norm_num [riskLevel]

/-- C3 counterexample: on a model returning the malformed probability row
`[3/2]` (wrong length, entry outside [0,1]) the scoring path does not fail:
it passes 3/2 straight through to tier assignment and reports tier High.
No validation of the model output exists in `show_customer_assessment`. -/
theorem C3_no_scoring_error_counterexample :
    assessCustomer malformedModel [] = some (1, 3/2, RiskLevel.high) := by
  norm_num [assessCustomer, churnProbability, malformedModel, riskLevel]

/-- C3 (amended): the code never validates or clamps the model output.
Whenever `predict_proba` yields a row-0/index-0 entry `p` — even one outside
[0,1] or inside a row of the wrong length — scoring succeeds, uses exactly
`p`, and assigns the tier computed from `p`; only a missing entry aborts the
request (as a generic caught exception, not a typed ScoringError). -/
theorem C3_malformed_output_passed_through (m : Model) (x : List ℚ)
    (pred : ℤ) (p : ℚ)
    (hpred : (m.predict x)[0]? = some pred)
    (hp : churnProbability m x = some p)
    (_hbad : p < 0 ∨ 1 < p) :
    assessCustomer m x = some (pred, p, riskLevel p) := by
  unfold assessCustomer
  rw [hpred, hp]

/-- C3 witness: the amended statement at the malformed model, whose
out-of-range entry 3/2 is passed through unclamped and tiered High. -/
theorem C3_malformed_output_passed_through_witness :
    assessCustomer malformedModel [] = some (1, 3/2, riskLevel (3/2)) :=
  C3_malformed_output_passed_through malformedModel [] 1 (3/2)
    rfl rfl (Or.inr (by norm_num))

/-! ## Input preprocessing (`BankCustomerAnalytics.preprocess_input`, lines 163-184) -/

/-- A cell of the one-row input DataFrame: numeric (`ℚ`) or categorical
(`String`). -/
abbrev ColValue := ℚ ⊕ String

/-- The one-row input DataFrame `input_df`, as an association of column name
to cell value. -/
abbrev CustomerRow := List (String × ColValue)

/-- The fitted numeric scaler (`models/scaler.pkl`): its declared input
columns (`feature_names_in_`) and its opaque deterministic `transform`. -/
structure FittedScaler where
  feature_names_in : List String
  transform : List ColValue → List ℚ

/-- The fitted categorical encoder (`models/encoder.pkl`): its declared input
columns (`feature_names_in_`) and its opaque deterministic `transform`
(one-hot expansion makes the output length independent of the input
column count). -/
structure FittedEncoder where
  feature_names_in : List String
  transform : List ColValue → List ℚ

/-- The pandas selection `input_df[cols]`: every named column in the given
order, or failure (`KeyError`) when any is absent. -/
def selectColumns (df : CustomerRow) : List String → Option (List ColValue)
  | [] => some []
  | c :: cs =>
    match df.lookup c, selectColumns df cs with
    | some v, some vs => some (v :: vs)
    | _, _ => none

/-- Lines 163-184 of `app.py`: read the numeric column list from the scaler
and the categorical column list from the encoder (never hardcoded), apply
each transform to its selected columns, and concatenate numeric-first via
`np.c_[X_num, X_cat]`.  Any exception (for example a missing column) is
caught at line 182 and the function yields no vector (`None`). -/
def preprocess_input (scaler : FittedScaler) (encoder : FittedEncoder)
    (input_df : CustomerRow) : Option (List ℚ) := do
  let numData ← selectColumns input_df scaler.feature_names_in
  let catData ← selectColumns input_df encoder.feature_names_in
  pure (scaler.transform numData ++ encoder.transform catData)

/-- When every requested column is present, the selection succeeds. -/
theorem selectColumns_isSome (df : CustomerRow) (cols : List String)
    (h : ∀ c ∈ cols, (df.lookup c).isSome) :
    ∃ vs, selectColumns df cols = some vs := by
  induction cols with
  | nil => exact ⟨[], rfl⟩
  | cons c cs ih =>
    obtain ⟨v, hv⟩ := Option.isSome_iff_exists.mp (h c (List.mem_cons_self c cs))
    obtain ⟨vs, hvs⟩ := ih fun c' hc' => h c' (List.mem_cons_of_mem c hc')
    exact ⟨v :: vs, by unfold selectColumns; rw [hv, hvs]⟩

/-- When some requested column is absent, the selection fails. -/
theorem selectColumns_none (df : CustomerRow) (cols : List String) (c : String)
    (hc : c ∈ cols) (hmiss : df.lookup c = none) :
    selectColumns df cols = none := by
  induction cols with
  | nil => cases hc
  | cons d ds ih =>
    rcases List.mem_cons.mp hc with rfl | hmem
    · unfold selectColumns
      rw [hmiss]
    · unfold selectColumns
      rw [ih hmem]
      cases df.lookup d <;> rfl

/-- C5: for a record containing every column declared by the fitted scaler
and encoder, preprocessing selects the numeric columns in the scaler's
declared order and the categorical columns in the encoder's declared order,
applies each fitted transform, and returns the numeric-first concatenation,
whose length is the numeric output length plus the categorical output
length; the column lists are read from the transformers (the statement is
uniform in them), and the computation is deterministic. -/
theorem C5_preprocess_concatenation (scaler : FittedScaler)
    (encoder : FittedEncoder) (input_df : CustomerRow)
    (hnum : ∀ c ∈ scaler.feature_names_in, (input_df.lookup c).isSome)
    (hcat : ∀ c ∈ encoder.feature_names_in, (input_df.lookup c).isSome) :
    ∃ numData catData,
      selectColumns input_df scaler.feature_names_in = some numData ∧
      selectColumns input_df encoder.feature_names_in = some catData ∧
      preprocess_input scaler encoder input_df =
        some (scaler.transform numData ++ encoder.transform catData) ∧
      (scaler.transform numData ++ encoder.transform catData).length =
        (scaler.transform numData).length + (encoder.transform catData).length ∧
      preprocess_input scaler encoder input_df =
        preprocess_input scaler encoder input_df := by
  obtain ⟨numData, hnumData⟩ := selectColumns_isSome input_df _ hnum
  obtain ⟨catData, hcatData⟩ := selectColumns_isSome input_df _ hcat
  exact ⟨numData, catData, hnumData, hcatData,
    by simp [preprocess_input, hnumData, hcatData],
    List.length_append _ _, rfl⟩

/-- A two-column demonstration scaler declaring one numeric column. -/
def demoScaler : FittedScaler :=
  { feature_names_in := ["Customer_Age"]
    transform := fun vs => vs.map fun v => Sum.elim id (fun _ => 0) v }

/-- A demonstration encoder declaring one categorical column, one-hot
expanding it to two outputs. -/
def demoEncoder : FittedEncoder :=
  { feature_names_in := ["Gender"]
    transform := fun vs => vs.flatMap fun v =>
      Sum.elim (fun _ => [0, 0]) (fun s => if s = "M" then [1, 0] else [0, 1]) v }

/-- A complete demonstration input row. -/
def demoRow : CustomerRow :=
  [("Customer_Age", Sum.inl 45), ("Gender", Sum.inr "M")]

/-- An input row lacking the categorical column `Gender`. -/
def demoRowMissing : CustomerRow :=
  [("Customer_Age", Sum.inl 45)]

/-- C5 witness: the preprocessing contract at a concrete scaler, encoder and
complete row. -/
theorem C5_preprocess_concatenation_witness :
    ∃ numData catData,
      selectColumns demoRow demoScaler.feature_names_in = some numData ∧
      selectColumns demoRow demoEncoder.feature_names_in = some catData ∧
      preprocess_input demoScaler demoEncoder demoRow =
        some (demoScaler.transform numData ++ demoEncoder.transform catData) ∧
      (demoScaler.transform numData ++ demoEncoder.transform catData).length =
        (demoScaler.transform numData).length +
          (demoEncoder.transform catData).length ∧
      preprocess_input demoScaler demoEncoder demoRow =
        preprocess_input demoScaler demoEncoder demoRow :=
  C5_preprocess_concatenation demoScaler demoEncoder demoRow
    (by intro c hc; simp [demoScaler] at hc; simp [hc, demoRow, List.lookup])
    (by intro c hc; simp [demoEncoder] at hc; simp [hc, demoRow, List.lookup])

/-- C7: a record missing any column required by the scaler's or the
encoder's declared input list makes preprocessing fail with no partial
feature vector (the embedding is a pure function, so there is no side
effect beyond the displayed error message the code emits). -/
theorem C7_missing_column_fails (scaler : FittedScaler)
    (encoder : FittedEncoder) (input_df : CustomerRow) (c : String)
    (hc : c ∈ scaler.feature_names_in ∨ c ∈ encoder.feature_names_in)
    (hmiss : input_df.lookup c = none) :
    preprocess_input scaler encoder input_df = none := by
  rcases hc with hc | hc
  · simp [preprocess_input, selectColumns_none input_df _ c hc hmiss]
  · have h := selectColumns_none input_df _ c hc hmiss
    unfold preprocess_input
    cases hsel : selectColumns input_df scaler.feature_names_in <;> simp [h]

/-- C7 witness: dropping the required categorical column `Gender` makes
preprocessing fail on the demonstration transformers. -/
theorem C7_missing_column_fails_witness :
    preprocess_input demoScaler demoEncoder demoRowMissing = none :=
  C7_missing_column_fails demoScaler demoEncoder demoRowMissing "Gender"
    (Or.inr (by simp [demoEncoder])) (by simp [demoRowMissing, List.lookup])

/-! ## Model registry (`analytics.models`, resolved at line 437) -/

/-- The model registry: the insertion-ordered dictionary
`analytics.models` mapping display name to fitted classifier. -/
abbrev Registry := List (String × Model)

/-- Line 437 of `app.py`: `model = analytics.models[model_choice]`, a
Python dict lookup whose only failure mode is `KeyError` on an
unregistered name (modelled as `none`). -/
def resolve (models : Registry) (name : String) : Option Model :=
  models.lookup name

/-- C8: resolving fails exactly on names not registered in the registry
(the dict lookup has no other failure mode), and a resolved model is one
registered under that name. -/
theorem C8_resolve_unknown_model (models : Registry) (name : String) :
    (resolve models name = none ↔ name ∉ models.map Prod.fst) ∧
    ∀ m, resolve models name = some m → (name, m) ∈ models := by
  induction models with
  | nil => exact ⟨by simp [resolve], fun m hm => by simp [resolve] at hm⟩
  | cons p ps ih =>
    obtain ⟨k, v⟩ := p
    cases hbe : (name == k) with
    | false =>
      have hstep : resolve ((k, v) :: ps) name = resolve ps name := by
        simp [resolve, List.lookup, hbe]
      have hne : name ≠ k := beq_eq_false_iff_ne.mp hbe
      constructor
      · rw [hstep]
        simp [hne, ih.1]
      · intro m hm
        rw [hstep] at hm
        exact List.mem_cons_of_mem _ (ih.2 m hm)
    | true =>
      obtain rfl := beq_iff_eq.mp hbe
      constructor
      · simp [resolve, List.lookup]
      · intro m hm
        simp [resolve, List.lookup] at hm
        cases hm
        exact List.mem_cons_self _ _

/-- The registry of the spec's concrete scenario, holding only the two
named classifiers. -/
def demoRegistry : Registry :=
  [("Gradient Boosting", stubModel), ("XGBoost", stubModel)]

/-- C8 witness: on a registry containing only Gradient Boosting and
XGBoost, resolving the name "Unknown Model" fails (and only lookup failure
occurs), while a registered name resolves to its classifier. -/
theorem C8_resolve_unknown_model_witness :
    resolve demoRegistry "Unknown Model" = none ∧
    resolve demoRegistry "Gradient Boosting" = some stubModel :=
  ⟨(C8_resolve_unknown_model demoRegistry "Unknown Model").1.mpr
    (by simp [demoRegistry]), rfl⟩

/-! ## Startup resource loading (`load_resources`, lines 131-161; serving
gate at lines 210-215) -/

/-- A population-level report (`business_report_gradient_boosting.json`,
`best_model_info.json`), kept abstract as keyed numeric fields. -/
abbrev ReportDoc := List (String × ℚ)

/-- The artifact store as `load_resources` sees it: each `joblib.load` or
`json.load` either yields its artifact or raises (`none`). -/
structure Artifacts where
  gradient_boosting : Option Model
  xgboost : Option Model
  random_forest : Option Model
  logistic_regression : Option Model
  catboost : Option Model
  scaler : Option FittedScaler
  encoder : Option FittedEncoder
  feature_names : Option (List String)
  business_report : Option ReportDoc
  best_model_info : Option ReportDoc

/-- The mutable fields of `BankCustomerAnalytics` after `__init__` and
`load_resources`. -/
structure AnalyticsState where
  models : Registry
  scaler : Option FittedScaler
  encoder : Option FittedEncoder
  feature_names : Option (List String)
  business_report : ReportDoc
  best_model_info : ReportDoc

/-- Lines 122-128 of `app.py`: `__init__` starts from empty collections and
`None` transformers. -/
def initState : AnalyticsState :=
  { models := [], scaler := none, encoder := none, feature_names := none,
    business_report := [], best_model_info := [] }

/-- Lines 131-161 of `app.py`: one `try` block loads, in order, the five
classifiers (a single dict literal: if any one load raises, `models` keeps
its prior empty value), then the scaler, encoder, feature names, business
report and best-model info; the first failure aborts the block, keeping
every assignment already made, and returns `False`; full success returns
`True`. -/
def load_resources (a : Artifacts) : AnalyticsState × Bool :=
  match a.gradient_boosting, a.xgboost, a.random_forest,
      a.logistic_regression, a.catboost with
  | some gb, some xgb, some rf, some lr, some cb =>
    let s1 : AnalyticsState :=
      { initState with
        models := [("Gradient Boosting", gb), ("XGBoost", xgb),
          ("Random Forest", rf), ("Logistic Regression", lr),
          ("CatBoost", cb)] }
    match a.scaler with
    | none => (s1, false)
    | some sc =>
      let s2 := { s1 with scaler := some sc }
      match a.encoder with
      | none => (s2, false)
      | some enc =>
        let s3 := { s2 with encoder := some enc }
        match a.feature_names with
        | none => (s3, false)
        | some fns =>
          let s4 := { s3 with feature_names := some fns }
          match a.business_report with
          | none => (s4, false)
          | some br =>
            let s5 := { s4 with business_report := br }
            match a.best_model_info with
            | none => (s5, false)
            | some bmi => ({ s5 with best_model_info := bmi }, true)
  | _, _, _, _, _ => (initState, false)

/-- Lines 210-215 of `app.py`: after constructing the analytics object,
`main` serves the scoring sections unless `analytics.models` is empty
(`if not analytics.models: st.stop()`); the boolean result of
`load_resources` is never consulted. -/
def servesScoringRequests (s : AnalyticsState) : Bool :=
  !s.models.isEmpty

/-- An artifact store whose five classifiers load but whose scaler (and
everything after it) is missing. -/
def partialArtifacts : Artifacts :=
  { gradient_boosting := some stubModel, xgboost := some stubModel,
    random_forest := some stubModel, logistic_regression := some stubModel,
    catboost := some stubModel, scaler := none, encoder := none,
    feature_names := none, business_report := none, best_model_info := none }

/-- C4 counterexample: when the five classifiers load but the scaler does
not, `load_resources` reports failure, yet the serving gate (which checks
only that the model dict is non-empty) still lets the process serve scoring
requests in this partially loaded state. -/
theorem C4_partial_load_still_serves_counterexample :
    (load_resources partialArtifacts).2 = false ∧
    servesScoringRequests (load_resources partialArtifacts).1 = true :=
  ⟨rfl, rfl⟩

/-- C4 (amended): the process refuses to serve scoring requests exactly
when one of the five classifiers fails to load (leaving the model dict
empty); a failure of the scaler, encoder, feature-name list or either
report after the classifiers load is reported by `load_resources` but does
not stop serving, because `main` checks only that the model dict is
non-empty.  The boolean success flag, by contrast, is true exactly when
every artifact loads. -/
theorem C4_serving_gate_checks_only_models (a : Artifacts) :
    (servesScoringRequests (load_resources a).1 = false ↔
      a.gradient_boosting = none ∨ a.xgboost = none ∨ a.random_forest = none ∨
      a.logistic_regression = none ∨ a.catboost = none) ∧
    ((load_resources a).2 = true ↔
      a.gradient_boosting.isSome ∧ a.xgboost.isSome ∧ a.random_forest.isSome ∧
      a.logistic_regression.isSome ∧ a.catboost.isSome ∧ a.scaler.isSome ∧
      a.encoder.isSome ∧ a.feature_names.isSome ∧ a.business_report.isSome ∧
      a.best_model_info.isSome) := by
  obtain ⟨gb, xgb, rf', lr, cb, sc, enc, fns, br, bmi⟩ := a
  cases gb <;> cases xgb <;> cases rf' <;> cases lr <;> cases cb <;>
    cases sc <;> cases enc <;> cases fns <;> cases br <;> cases bmi <;>
    simp [load_resources, servesScoringRequests, initState]

/-! ## Customer record assembly (`prepare_customer_data`, lines 450-479,
and the derived CLV of `show_prediction_results`, lines 508-510) -/

/-- The sixteen arguments of `prepare_customer_data`, in the order of its
signature. -/
structure Params where
  age : ℚ
  gender : String
  dependents : ℚ
  education : String
  marital : String
  income : String
  card : String
  months : ℚ
  products : ℚ
  inactive : ℚ
  contacts : ℚ
  limit : ℚ
  balance : ℚ
  trans_amt : ℚ
  trans_ct : ℚ
  utilization : ℚ

/-- The one-row DataFrame returned by `prepare_customer_data`: its nineteen
columns, in the order of the dict literal of lines 458-479. -/
structure CustomerData where
  customer_Age : ℚ
  gender : String
  dependent_count : ℚ
  education_Level : String
  marital_Status : String
  income_Category : String
  card_Category : String
  months_on_book : ℚ
  total_Relationship_Count : ℚ
  months_Inactive_12_mon : ℚ
  contacts_Count_12_mon : ℚ
  credit_Limit : ℚ
  total_Revolving_Bal : ℚ
  avg_Open_To_Buy : ℚ
  total_Trans_Amt : ℚ
  total_Trans_Ct : ℚ
  avg_Utilization_Ratio : ℚ
  total_Amt_Chng_Q4_Q1 : ℚ
  total_Ct_Chng_Q4_Q1 : ℚ

/-- Lines 450-479 of `app.py`: every column is a passed argument, except
`Avg_Open_To_Buy` (derived as `limit - balance` at line 456) and the two
quarter-over-quarter change ratios, both fixed to the engineering default
0.8 (lines 477-478). -/
def prepare_customer_data (p : Params) : CustomerData :=
  { customer_Age := p.age
    gender := p.gender
    dependent_count := p.dependents
    education_Level := p.education
    marital_Status := p.marital
    income_Category := p.income
    card_Category := p.card
    months_on_book := p.months
    total_Relationship_Count := p.products
    months_Inactive_12_mon := p.inactive
    contacts_Count_12_mon := p.contacts
    credit_Limit := p.limit
    total_Revolving_Bal := p.balance
    avg_Open_To_Buy := p.limit - p.balance
    total_Trans_Amt := p.trans_amt
    total_Trans_Ct := p.trans_ct
    avg_Utilization_Ratio := p.utilization
    total_Amt_Chng_Q4_Q1 := 8/10
    total_Ct_Chng_Q4_Q1 := 8/10 }

/-- Lines 508-510 of `app.py`:
`clv = customer_data['Total_Trans_Amt'].iloc[0] * 12`. -/
def annualizedCLV (d : CustomerData) : ℚ :=
  d.total_Trans_Amt * 12

/-- C6: for every customer record, the annualized customer value displayed
is exactly the total transaction amount multiplied by 12. -/
theorem C6_annualized_clv (p : Params) (_h : 0 ≤ p.trans_amt) :
    annualizedCLV (prepare_customer_data p) = p.trans_amt * 12 :=
  rfl

/-- C6 witness: a customer with total transaction amount 5000 gets an
annualized value of 60000. -/
theorem C6_annualized_clv_witness :
    annualizedCLV (prepare_customer_data
      ⟨45, "M", 1, "Graduate", "Married", "Less than $40K", "Blue",
        36, 3, 2, 2, 5000, 500, 5000, 50, 3/10⟩) = 60000 := by
  rw [C6_annualized_clv
    ⟨45, "M", 1, "Graduate", "Married", "Less than $40K", "Blue",
      36, 3, 2, 2, 5000, 500, 5000, 50, 3/10⟩ (by norm_num)]
  norm_num

/-- The nineteen column names of the prepared record, as an enumeration. -/
inductive DataColumn where
  | customer_Age
  | gender
  | dependent_count
  | education_Level
  | marital_Status
  | income_Category
  | card_Category
  | months_on_book
  | total_Relationship_Count
  | months_Inactive_12_mon
  | contacts_Count_12_mon
  | credit_Limit
  | total_Revolving_Bal
  | avg_Open_To_Buy
  | total_Trans_Amt
  | total_Trans_Ct
  | avg_Utilization_Ratio
  | total_Amt_Chng_Q4_Q1
  | total_Ct_Chng_Q4_Q1
  deriving DecidableEq, Repr

/-- The cell of the prepared one-row DataFrame in a given column. -/
def getColumn (d : CustomerData) : DataColumn → ColValue
  | .customer_Age => Sum.inl d.customer_Age
  | .gender => Sum.inr d.gender
  | .dependent_count => Sum.inl d.dependent_count
  | .education_Level => Sum.inr d.education_Level
  | .marital_Status => Sum.inr d.marital_Status
  | .income_Category => Sum.inr d.income_Category
  | .card_Category => Sum.inr d.card_Category
  | .months_on_book => Sum.inl d.months_on_book
  | .total_Relationship_Count => Sum.inl d.total_Relationship_Count
  | .months_Inactive_12_mon => Sum.inl d.months_Inactive_12_mon
  | .contacts_Count_12_mon => Sum.inl d.contacts_Count_12_mon
  | .credit_Limit => Sum.inl d.credit_Limit
  | .total_Revolving_Bal => Sum.inl d.total_Revolving_Bal
  | .avg_Open_To_Buy => Sum.inl d.avg_Open_To_Buy
  | .total_Trans_Amt => Sum.inl d.total_Trans_Amt
  | .total_Trans_Ct => Sum.inl d.total_Trans_Ct
  | .avg_Utilization_Ratio => Sum.inl d.avg_Utilization_Ratio
  | .total_Amt_Chng_Q4_Q1 => Sum.inl d.total_Amt_Chng_Q4_Q1
  | .total_Ct_Chng_Q4_Q1 => Sum.inl d.total_Ct_Chng_Q4_Q1

/-- One argument tuple, and a second differing from it in every passed
argument (including the derived open-to-buy difference). -/
def paramsA : Params :=
  ⟨0, "a", 0, "a", "a", "a", "a", 0, 0, 0, 0, 0, 0, 0, 0, 0⟩

/-- See `paramsA`. -/
def paramsB : Params :=
  ⟨1, "b", 1, "b", "b", "b", "b", 1, 1, 1, 1, 2, 1, 1, 1, 1⟩

/-- C9: exactly two columns of the prepared record are input-independent
engineering defaults — the quarter-over-quarter amount-change and
count-change ratios, both uniformly 0.8 — and every other column varies
with the input, so no other attribute is silently defaulted. -/
theorem C9_exactly_two_defaults :
    (∀ p : Params,
      getColumn (prepare_customer_data p) DataColumn.total_Amt_Chng_Q4_Q1 =
        Sum.inl (8/10) ∧
      getColumn (prepare_customer_data p) DataColumn.total_Ct_Chng_Q4_Q1 =
        Sum.inl (8/10)) ∧
    ∀ col : DataColumn,
      (∀ p q : Params,
        getColumn (prepare_customer_data p) col =
          getColumn (prepare_customer_data q) col) ↔
      (col = DataColumn.total_Amt_Chng_Q4_Q1 ∨
        col = DataColumn.total_Ct_Chng_Q4_Q1) := by
  refine ⟨fun p => ⟨rfl, rfl⟩, fun col => ⟨fun h => ?_, ?_⟩⟩
  · cases col
    case total_Amt_Chng_Q4_Q1 => exact Or.inl rfl
    case total_Ct_Chng_Q4_Q1 => exact Or.inr rfl
    all_goals
      exact absurd (h paramsA paramsB)
        (by norm_num [getColumn, prepare_customer_data, paramsA, paramsB] <;>
          decide)
  · rintro (rfl | rfl) <;> exact fun p q => rfl

/-! ## Bilingual label tables (app.py lines 53-82) -/

/-- Insertion into a Python dict: an existing key keeps its position and
gets the new value, a new key is appended. -/
def dictInsert (d : List (String × String)) (k v : String) :
    List (String × String) :=
  if d.any fun p => p.1 == k then
    d.map fun p => if p.1 == k then (k, v) else p
  else d ++ [(k, v)]

/-- The dict comprehension `{v: k for k, v in m.items()}` of lines 80-82:
fold the forward table, inserting value-to-key pairs in iteration order
(a duplicate value would overwrite). -/
def reverseDict (m : List (String × String)) : List (String × String) :=
  m.foldl (fun d p => dictInsert d p.2 p.1) []

/-- Lines 53-61 of `app.py`: `education_map`. -/
def education_map : List (String × String) :=
  [("Unknown", "Неизвестно"),
   ("Uneducated", "Необразованный"),
   ("High School", "Средняя школа"),
   ("College", "Колледж"),
   ("Graduate", "Выпускник"),
   ("Post-Graduate", "Аспирант"),
   ("Doctorate", "Доктор наук")]

/-- Lines 63-68 of `app.py`: `marital_map`. -/
def marital_map : List (String × String) :=
  [("Unknown", "Неизвестно"),
   ("Single", "Холост"),
   ("Married", "Женат"),
   ("Divorced", "Разведен")]

/-- Lines 70-77 of `app.py`: `income_map`. -/
def income_map : List (String × String) :=
  [("Unknown", "Неизвестно"),
   ("Less than $40K", "Менее 4 млн.₽"),
   ("$40K - $60K", "4-6 млн.₽"),
   ("$60K - $80K", "6-8 млн.₽"),
   ("$80K - $120K", "8-12 млн.₽"),
   ("$120K +", "Более 12 млн.₽")]

/-- Line 80 of `app.py`. -/
def education_map_reverse : List (String × String) :=
  reverseDict education_map

/-- Line 81 of `app.py`. -/
def marital_map_reverse : List (String × String) :=
  reverseDict marital_map

/-- Line 82 of `app.py`. -/
def income_map_reverse : List (String × String) :=
  reverseDict income_map

/-- C10: in each of the three display-label tables the Russian display
labels are pairwise distinct, and looking a pair's display label up in
the reverse table returns exactly its English model label, so the reverse
map inverts the forward translation on every model label. -/
theorem C10_label_tables_invertible :
    ((education_map.map Prod.snd).Nodup ∧
      ∀ p ∈ education_map, education_map_reverse.lookup p.2 = some p.1) ∧
    ((marital_map.map Prod.snd).Nodup ∧
      ∀ p ∈ marital_map, marital_map_reverse.lookup p.2 = some p.1) ∧
    ((income_map.map Prod.snd).Nodup ∧
      ∀ p ∈ income_map, income_map_reverse.lookup p.2 = some p.1) := by
  decide

end VKR
